import Mathlib

/-!
Verification of the ColdFusion L1 driver's topology / address-resolution logic
(`coldfusion/driver_commands.py`), shallowly embedded in Lean.

Python strings are modelled as Lean `String` / `List Char`; Python ints as `Int`
(no overflow concerns arise); fallible code returns `Option` / `Except`.
-/

/-- String constant: the dot separator used in egress tokens and serial labels. -/
def dotStr : String := "."

/-- String constant: the underscore used in lane-tagged compact port codes. -/
def underscoreStr : String := "_"

/-- String constant: a single zero, used for zero-padding two-digit codes. -/
def zeroStr : String := "0"

/-- String constant: the literal lane suffix of a non-breakout serial label. -/
def oneStr : String := "1"

/-- Python `s.split(sep)` for a single-character separator: splits at every
occurrence of `sep`, keeping empty fragments (so `splitChar sep [] = [[]]`,
matching Python where splitting the empty string yields one empty part). -/
def splitChar (sep : Char) : List Char → List (List Char)
  | [] => [[]]
  | c :: cs =>
    if c = sep then [] :: splitChar sep cs
    else
      match splitChar sep cs with
      | [] => [[c]]
      | g :: gs => (c :: g) :: gs

/-- Decimal value of a digit string (the value Python `int` computes on an
all-digit string). -/
def digitsVal (cs : List Char) : Nat :=
  cs.foldl (fun a c => 10 * a + (c.toNat - 48)) 0

/-- Python `int(s)` restricted to unsigned decimal numerals: `some` of the
value when `s` is a non-empty run of ASCII digits, `none` (ValueError)
otherwise.  (Whitespace tolerance and a leading `+` of the real `int` are not
modelled; no caller in this driver relies on them.) -/
def digitsVal? (cs : List Char) : Option Nat :=
  if cs ≠ [] ∧ cs.all Char.isDigit then some (digitsVal cs) else none

/-- Python `int(s)` on possibly negative decimal numerals: an optional leading
minus sign followed by digits. -/
def pyIntChars (cs : List Char) : Option Int :=
  if cs.head? = some '-' then (digitsVal? cs.tail).map (fun n => -(n : Int))
  else (digitsVal? cs).map (fun n => (n : Int))

/-- `DriverCommands._parse_lport`: parse a device egress token
`"<linecard>.<port>[:<lane>]"` into `(linecard, port, lane)`, with
lane `-1` when the `:<lane>` part is absent.  Python raises `ValueError`
(tuple-unpack or `int` failure) on malformed tokens; this is modelled as
`none`. -/
def _parse_lport (s : String) : Option (Int × Int × Int) := do
  let parts0 := splitChar '.' s.data
  if parts0.length = 2 then
    let lc ← parts0.get? 0
    let port_lane ← parts0.get? 1
    let parts := splitChar ':' port_lane
    if parts.length = 2 then
      let port ← parts.get? 0
      let lane ← parts.get? 1
      pure (← pyIntChars lc, ← pyIntChars port, ← pyIntChars lane)
    else
      -- Python: port = parts[0]; lane = "-1"
      let p ← parts.head?
      pure (← pyIntChars lc, ← pyIntChars p, -1)
  else none

/-- Python `"{0:02}".format(i)`: decimal rendering zero-padded to width 2
(a sign counts toward the width, as in Python). -/
def fmt02 (i : Int) : String :=
  if 0 ≤ i ∧ i < 10 then zeroStr ++ toString i else toString i

/-- `DriverCommands._qport`: the compact port code.  Python's guard is
`if lane and lane >= 1`, so a `None` lane, a zero lane (falsy) and a negative
lane (truthy but `< 1`) all produce the unlaned code `"{port:02}"`; only
`lane >= 1` produces `"{port:02}_{lane}"`. -/
def _qport (port : Int) (lane : Option Int) : String :=
  match lane with
  | some l => if 1 ≤ l then fmt02 port ++ underscoreStr ++ toString l else fmt02 port
  | none => fmt02 port

/-- String constant: the breakout-capable port type reported by the device. -/
def typeOPortCF1 : String := "OPort_CF1"

/-- One entry of a linecard's `GET linecards/{lc}/ports` response: the fields
the driver reads (`Type`, `Breakout`), under the local names the source binds
them to (`ptype`, `breakout`). -/
structure PortJson where
  ptype : String
  breakout : Bool
deriving DecidableEq

/-- A Port resource created during the first discovery pass: its compact id
(the key under which it is stored in the blade's dict) and its serial label. -/
structure PortEntry where
  port_id : String
  serial : String
deriving DecidableEq

/-- First-pass port creation for one reported port (`lc1`, `p1` are the
1-based linecard and port numbers, i.e. `lc+1` and `port+1` in the source):
a breakout `OPort_CF1` port yields 4 lane ports keyed `(p, 1..4)` with serial
`"{lc:02}.{p:01}.{lane}"`; any other port yields one port keyed `(p)` with
serial `"{lc:02}.{p:01}.1"`. -/
def portEntries (lc1 p1 : Nat) (pj : PortJson) : List PortEntry :=
  if pj.breakout && pj.ptype == typeOPortCF1 then
    (List.range 4).map (fun lane0 =>
      { port_id := _qport p1 (some ((lane0 : Int) + 1)),
        serial := fmt02 lc1 ++ dotStr ++ toString p1 ++ dotStr ++ toString (lane0 + 1) })
  else
    [{ port_id := _qport p1 none,
       serial := fmt02 lc1 ++ dotStr ++ toString p1 ++ dotStr ++ oneStr }]

/-- All ports of one linecard (1-based `lc1`), in report order. -/
def buildBladePorts (lc1 : Nat) (ports_json : List PortJson) : List PortEntry :=
  (ports_json.enum.map (fun ip => portEntries lc1 (ip.1 + 1) ip.2)).flatten

/-- The `_blades` index built by the first pass: for each populated linecard,
its 1-based id and the set of port keys it holds. -/
abbrev Blades := List (Int × List String)

/-- First discovery pass over the chassis `Linecards` slot list (a slot is
`none` when the device reports `null`; a populated slot carries the port list
the driver then fetches for that linecard).  `lc0` is the 0-based index of the
first slot in the remaining list. -/
def buildBladesAux (lc0 : Nat) : List (Option (List PortJson)) → Blades
  | [] => []
  | none :: rest => buildBladesAux (lc0 + 1) rest
  | some ports :: rest =>
    ((lc0 + 1 : Nat), (buildBladePorts (lc0 + 1) ports).map (fun e => e.port_id))
      :: buildBladesAux (lc0 + 1) rest

/-- `_blades` after the first pass, from the chassis slot list. -/
def buildBlades (linecards : List (Option (List PortJson))) : Blades :=
  buildBladesAux 0 linecards

/-- The blade resource ids created (1-based slot positions of non-null slots). -/
def bladeIds (linecards : List (Option (List PortJson))) : List Int :=
  (buildBlades linecards).map Prod.fst

/-- Python `_blades.has_key(lc)`. -/
def hasKey (blades : Blades) (lc : Int) : Bool :=
  blades.any (fun b => b.1 == lc)

/-- The port keys of blade `lc` (empty when the linecard is unknown). -/
def bladeKeys (blades : Blades) (lc : Int) : List String :=
  ((blades.find? (fun b => b.1 == lc)).map Prod.snd).getD []

/-- Python `port_id in _blades[lc]` (dict key membership). -/
def keyIn (blades : Blades) (lc : Int) (key : String) : Bool :=
  (bladeKeys blades lc).contains key

/-- Lexicographic comparison of strings by code point (the order Python's
`sorted` uses on `str`). -/
def strLeB : List Char → List Char → Bool
  | [], _ => true
  | _ :: _, [] => false
  | a :: as, b :: bs =>
    if a.toNat < b.toNat then true
    else if b.toNat < a.toNat then false
    else strLeB as bs

/-- Insert a string into an already-sorted list (lexicographic order). -/
def insertSorted (s : String) : List String → List String
  | [] => [s]
  | t :: ts => if strLeB s.data t.data then s :: t :: ts else t :: insertSorted s ts

/-- Python `sorted(keys)` on strings. -/
def sortKeys (l : List String) : List String :=
  l.foldr insertSorted []

/-- The exceptions the mapping pass of `get_resource_description` can raise.
`keyErrorDiag` models the non-breakout branch's handler, which logs the
destination linecard and the sorted set of its known keys before re-raising
the `KeyError` for the expected key; `keyError` is the bare `KeyError` of the
breakout branch (no diagnostics); `malformed` is the `ValueError` from
`_parse_lport`; `indexError` an out-of-range egress slot access; `noneType`
the `AttributeError` from calling `.split` on a `None` slot. -/
inductive DiscoveryError where
  | indexError : DiscoveryError
  | noneType : DiscoveryError
  | malformed : String → DiscoveryError
  | keyError : String → DiscoveryError
  | keyErrorDiag : Int → String → List String → DiscoveryError
deriving DecidableEq

/-- A cross-connect edge recorded by `mapped_to.add_mapping(port_obj)`:
`owner` is the destination port (identified by linecard id and port key) on
whose object the mapping is stored, `mapped` the source port recorded there. -/
structure Mapping where
  owner : Int × String
  mapped : Int × String
deriving DecidableEq

/-- One iteration of the breakout branch's inner loop (one `egress_port`
entry for source lane `lane0+1`): pick slot `min(lane0, len(entry)-1)`
(Python indexes `entry[-1]` on an empty entry — an `IndexError`), skip empty
slots, parse the token, broadcast the source lane when the entry has a single
element, and record the edge only when the destination linecard is known and
the inferred lane equals the source lane; the destination port object is then
looked up with a bare dict access (`KeyError` when the key is absent). -/
def breakoutLaneStep (blades : Blades) (src : Int × String) (lane0 : Nat)
    (entry : List (Option String)) : Except DiscoveryError (Option Mapping) :=
  if entry.length = 0 then .error .indexError
  else
    match entry.get? (min lane0 (entry.length - 1)) with
    | none => .error .indexError
    | some none => .ok none
    | some (some s) =>
      if s.length = 0 then .ok none
      else
        match _parse_lport s with
        | none => .error (.malformed s)
        | some (elc, ep, elane0) =>
          let elane : Int := if entry.length = 1 then (lane0 : Int) + 1 else elane0
          if hasKey blades elc && (elane == (lane0 : Int) + 1) then
            if keyIn blades elc (_qport ep (some elane)) then
              .ok (some { owner := (elc, _qport ep (some elane)), mapped := src })
            else .error (.keyError (_qport ep (some elane)))
          else .ok none

/-- One iteration of the non-breakout branch's loop (one `egress_port`
entry): take the entry's first slot (`egress_port[0]`), parse it, and if the
destination linecard is known look up `_qport(eport[1], eport[2])` on that
blade; a missing key is caught, the blade's sorted key set is logged together
with the linecard, and the `KeyError` is re-raised. -/
def nonBreakoutStep (blades : Blades) (src : Int × String)
    (entry : List (Option String)) : Except DiscoveryError (Option Mapping) :=
  match entry.get? 0 with
  | none => .error .indexError
  | some none => .error .noneType
  | some (some s) =>
    match _parse_lport s with
    | none => .error (.malformed s)
    | some (elc, ep, elane) =>
      if hasKey blades elc then
        if keyIn blades elc (_qport ep (some elane)) then
          .ok (some { owner := (elc, _qport ep (some elane)), mapped := src })
        else
          .error (.keyErrorDiag elc (_qport ep (some elane))
            (sortKeys (bladeKeys blades elc)))
      else .ok none

/-- Run one branch's step over every `egress_port` entry of a port's egress
list, in order; the first exception aborts the whole discovery call (nothing
downstream of it is processed, and no partial result escapes). -/
def resolveEntries (stepFn : List (Option String) → Except DiscoveryError (Option Mapping)) :
    List (List (Option String)) → Except DiscoveryError (List Mapping)
  | [] => .ok []
  | e :: rest => do
    let m? ← stepFn e
    let ms ← resolveEntries stepFn rest
    pure (match m? with | some m => m :: ms | none => ms)

/-- Mapping resolution for one non-breakout port: every egress entry is
processed. -/
def resolveNonBreakoutPort (blades : Blades) (src : Int × String)
    (egress : List (List (Option String))) : Except DiscoveryError (List Mapping) :=
  resolveEntries (nonBreakoutStep blades src) egress

/-- Mapping resolution for one breakout port `p1` (1-based) of linecard `lc`:
for each lane 1..4, every egress entry is processed. -/
def resolveBreakoutPort (blades : Blades) (lc : Int) (p1 : Nat)
    (egress : List (List (Option String))) : Except DiscoveryError (List Mapping) := do
  let mss ← (List.range 4).mapM (fun (lane0 : Nat) =>
    resolveEntries
      (breakoutLaneStep blades (lc, _qport p1 (some ((lane0 : Int) + 1))) lane0) egress)
  pure mss.flatten

/-- Does a step result record an edge? -/
def recordsEdge : Except DiscoveryError (Option Mapping) → Bool
  | .ok (some _) => true
  | _ => false

/-- Is a result the diagnosed topology-inconsistency failure (the one that
reports a linecard, an expected key and the known key set)? -/
def isDiagnosedInconsistency : Except DiscoveryError (Option Mapping) → Bool
  | .error (.keyErrorDiag _ _ _) => true
  | _ => false

/-- Python `s.replace("_", ":")` for the single characters involved. -/
def replaceUnderscore (cs : List Char) : List Char :=
  cs.map (fun c => if c = '_' then ':' else c)

/-- `DriverCommands._portid`: convert an external address
`"<device>/<linecard>/<port>[_<lane>]"` into the device pair code
`"<linecard>.<port>[:<lane>]"`.  Python indexes `parts[1]` and `parts[2]`
(IndexError — modelled `none` — when fewer than three `/`-separated parts). -/
def _portid (port : String) : Option String :=
  match splitChar '/' port.data with
  | _ :: p1 :: p2 :: _ => some ⟨p1 ++ '.' :: replaceUnderscore p2⟩
  | _ => none

/-- Resolve a list of fallible results left to right, failing on the first
failure (the behaviour of the Python loops that resolve each destination
address in turn). -/
def allSome : List (Option α) → Option (List α)
  | [] => some []
  | o :: os => do pure ((← o) :: (← allSome os))

/-- String constant: the one-way direction tag. -/
def oneWayStr : String := "OneWay"

/-- String constant: the two-way direction tag. -/
def twoWayStr : String := "TwoWay"

/-- String constant: the map API endpoint name. -/
def mapApi : String := "map"

/-- The body (plus target endpoint) of one `chassis_post` connection command.
`Pairs` holds `(A, B)` with `none` for Python `None` (used by `map_clear`). -/
structure MapRequest where
  api : String
  Direction : String
  Pairs : List (Option String × Option String)
deriving DecidableEq

/-- `DriverCommands.map_uni`: resolve the source once and every destination in
order, and issue exactly one `POST chassis/do/map` request with direction
`"OneWay"` and one `(A=src, B=dst)` pair per destination.  `none` models the
exception a malformed address raises before any request is issued. -/
def map_uni_request (src_port : String) (dst_ports : List String) : Option MapRequest := do
  let s ← _portid src_port
  let ds ← allSome (dst_ports.map _portid)
  pure { api := mapApi, Direction := oneWayStr,
         Pairs := ds.map (fun d => (some s, some d)) }

/-- `DriverCommands.map_tap`: literally `return self.map_uni(src_port,
dst_ports)`. -/
def map_tap_request (src_port : String) (dst_ports : List String) : Option MapRequest :=
  map_uni_request src_port dst_ports

/-- `DriverCommands._linecard_port_lane`: split an external address into
linecard string, port string and optional lane; the lane is taken after the
first `_` of the port part (`None` when no `_` is present). -/
def _linecard_port_lane (port : String) : Option (String × String × Option Int) :=
  match splitChar '/' port.data with
  | _ :: p1 :: p2 :: _ =>
    match p2.findIdx? (fun c => c = '_') with
    | some idx => do
      let lane ← pyIntChars (p2.drop (idx + 1))
      pure (⟨p1⟩, ⟨p2.take idx⟩, some lane)
    | none => some (⟨p1⟩, ⟨p2⟩, none)
  | _ => none

/-- The exceptions a mutating request can surface.  `coldFusion` is
`ColdFusionException(error)` with the device's verbatim `Error` message;
`httpStatus` the `requests.HTTPError` raised by `raise_for_status()` (it
carries the status code); `raisedNone` the `TypeError` produced by
`raise r.raise_for_status()` when `raise_for_status()` returns `None`
(statement `raise None`) — it carries no status information. -/
inductive CFError where
  | coldFusion : String → CFError
  | httpStatus : Nat → CFError
  | raisedNone : CFError
deriving DecidableEq

/-- Modelled from the `requests` library contract (an external collaborator):
`Response.raise_for_status()` raises `HTTPError` exactly when the status code
lies in 400..599, and returns `None` otherwise. -/
def raise_for_status (code : Nat) : Option CFError :=
  if 400 ≤ code ∧ code < 600 then some (.httpStatus code) else none

/-- `DriverCommands._handle_error`: try to read an `Error` field from the JSON
body and raise `ColdFusionException` with it; if the body has no such field
(or is not JSON), fall back to `raise r.raise_for_status()` — an `HTTPError`
for 4xx/5xx statuses, and `raise None` (a `TypeError`) for any other status.
`errorField` is the body's `Error` string when present. -/
def _handle_error (code : Nat) (errorField : Option String) : CFError :=
  match errorField with
  | some e => .coldFusion e
  | none =>
    match raise_for_status code with
    | some err => err
    | none => .raisedNone

/-- Outcome of one mutating request (`chassis_post`; `chassis_put` has the
identical status logic): 200 and 204 succeed (the JSON body a 200 returns is
discarded by every mutating caller, so success is `Unit`); anything else goes
through `_handle_error`. -/
def chassis_post (code : Nat) (errorField : Option String) : Except CFError Unit :=
  if code = 200 ∨ code = 204 then .ok () else .error (_handle_error code errorField)

/-- Claim C7 as stated (for comparison): every non-success status with an
`Error` body surfaces that message, and every non-success status without one
surfaces a transport-status error carrying the status code. -/
def chassis_post_claimed (code : Nat) (errorField : Option String) : Except CFError Unit :=
  if code = 200 ∨ code = 204 then .ok ()
  else
    match errorField with
    | some e => .error (.coldFusion e)
    | none => .error (.httpStatus code)

/-- String constants for request paths. -/
def linecardsSeg : String := "linecards/"

/-- String constant: the middle segment of a port update path. -/
def portsSeg : String := "/ports/"

/-- Outcome of `set_attribute_value`. -/
inductive SetAttrOutcome where
  | put : String → String → SetAttrOutcome
  | typeError : SetAttrOutcome
  | badAddress : SetAttrOutcome
deriving DecidableEq

/-- `DriverCommands.set_attribute_value`, faithful to the source: for a laned
address the padding expression `"," * lane-1 + ...` parses as
`(","*lane) - 1`, subtracting an int from a str — a `TypeError` at runtime
(and the computed `val` is never used: the PUT body is built from the raw
`attribute_value`).  A lane of 0 is falsy, so it takes the unlaned branch.
`put path speed` models `chassis_put("linecards/{lc}/ports/{p}",
dict(Speed=attribute_value))`. -/
def set_attribute_value (cs_address : String) (attribute_value : String) : SetAttrOutcome :=
  match _linecard_port_lane cs_address with
  | none => .badAddress
  | some (lc, port, lane) =>
    match lane with
    | some l =>
      if l ≠ 0 then .typeError
      else .put (linecardsSeg ++ lc ++ portsSeg ++ port) attribute_value
    | none => .put (linecardsSeg ++ lc ++ portsSeg ++ port) attribute_value

/-- Modelled from the spec: the comma padding the attribute-set path is meant
to build for a lane-qualified value — `lane-1` leading and `4-lane` trailing
comma separators around the value. -/
def paddedValueSpec (lane : Nat) (v : String) : String :=
  ⟨List.replicate (lane - 1) ','⟩ ++ v ++ ⟨List.replicate (4 - lane) ','⟩

/-- Claim C2 as stated (for comparison): non-breakout resolution takes the
first egress entry only, parses it, and when the destination linecard is
known resolves to that linecard's port ignoring the lane, recording that one
edge on the destination. -/
def nonBreakoutResolveClaimed (blades : Blades) (src : Int × String)
    (egress : List (List (Option String))) : Except DiscoveryError (List Mapping) :=
  match egress.get? 0 with
  | none => .ok []
  | some entry =>
    match entry.get? 0 with
    | none => .error .indexError
    | some none => .error .noneType
    | some (some s) =>
      match _parse_lport s with
      | none => .error (.malformed s)
      | some (elc, ep, _) =>
        if hasKey blades elc then
          if keyIn blades elc (_qport ep none) then
            .ok [{ owner := (elc, _qport ep none), mapped := src }]
          else
            .error (.keyErrorDiag elc (_qport ep none) (sortKeys (bladeKeys blades elc)))
        else .ok []

/-- Token constant used in claim C6. -/
def tok_3_12_2 : String := "3.12:2"

/-- Token constant used in claim C6. -/
def tok_3_12 : String := "3.12"

/-- Token constant used in claim C6. -/
def tok_3 : String := "3"

/-- Token constant used in claim C1. -/
def tok_3_5_1 : String := "3.5:1"

/-- Token constant used in claim C3. -/
def tok_2_9_1 : String := "2.9:1"

/-- Token constant used in claim C2. -/
def tok_2_1_2 : String := "2.1:2"

/-- Token constant used in claim C2. -/
def tok_2_3 : String := "2.3"

/-- Port-key constant "05_1". -/
def key_05_1 : String := "05_1"

/-- Port-key constant "09_1". -/
def key_09_1 : String := "09_1"

/-- Port-key constant "01". -/
def key_01 : String := "01"

/-- Port-key constant "01_1". -/
def key_01_1 : String := "01_1"

/-- Port-key constant "01_2". -/
def key_01_2 : String := "01_2"

/-- Port-key constant "01_3". -/
def key_01_3 : String := "01_3"

/-- Port-key constant "01_4". -/
def key_01_4 : String := "01_4"

/-- Port-key constant "03". -/
def key_03 : String := "03"

/-- The device error message used in claim C7. -/
def portBusyMsg : String := "port busy"

/-- External address constants used in claims C8 and C9. -/
def addr_1_21 : String := "192.168.42.240/1/21"

/-- External address constant. -/
def addr_1_22 : String := "192.168.42.240/1/22"

/-- External address constant. -/
def addr_1_23 : String := "192.168.42.240/1/23"

/-- External address constant with lane qualifier. -/
def addr_1_21_2 : String := "192.168.42.240/1/21_2"

/-- Attribute value constant used in claim C9. -/
def speed10000 : String := "10000"

theorem splitChar_of_not_mem (sep : Char) : ∀ cs : List Char, sep ∉ cs → splitChar sep cs = [cs]
  | [], _ => rfl
  | c :: cs, h => by
    simp only [List.mem_cons, not_or] at h
    rw [splitChar, if_neg (fun hc => h.1 hc.symm), splitChar_of_not_mem sep cs h.2]

theorem splitChar_append (sep : Char) (b : List Char) :
    ∀ a : List Char, sep ∉ a → splitChar sep (a ++ sep :: b) = a :: splitChar sep b
  | [], _ => by
    simp [splitChar]
  | c :: a, h => by
    simp only [List.mem_cons, not_or] at h
    rw [List.cons_append, splitChar, if_neg (fun hc => h.1 hc.symm),
      splitChar_append sep b a h.2]

theorem not_mem_of_all_digits {cs : List Char} (h : cs.all Char.isDigit = true)
    {c : Char} (hc : c.isDigit = false) : c ∉ cs := by
  intro hm
  rw [List.all_eq_true] at h
  rw [h c hm] at hc
  exact absurd hc (by decide)

theorem pyIntChars_digits {cs : List Char} (h0 : cs ≠ []) (h : cs.all Char.isDigit = true) :
    pyIntChars cs = some ((digitsVal cs : Int)) := by
  have hhead : ¬(cs.head? = some '-') := by
    cases cs with
    | nil => exact absurd rfl h0
    | cons c cs =>
      have hc : c.isDigit = true := by
        rw [List.all_cons, Bool.and_eq_true] at h
        exact h.1
      intro hcon
      rw [List.head?, Option.some_inj] at hcon
      rw [hcon] at hc
      exact absurd hc (by decide)
  rw [pyIntChars, if_neg hhead, digitsVal?, if_pos ⟨h0, h⟩]
  rfl

/-- Claim C6: `_parse_lport` maps the token `"3.12:2"` to `(3, 12, 2)` and
`"3.12"` to `(3, 12, -1)`; every well-formed token
`"<linecard>.<port>[:<lane>]"` (decimal numerals) parses to its three
integers, with lane `-1` when the `:<lane>` part is absent; and the malformed
token `"3"` (wrong separator count) fails — the Python `ValueError`, modelled
`none` — rather than returning a value. -/
theorem parse_lport_egress_tokens :
    (∀ lcS pS laneS : List Char,
      lcS ≠ [] → lcS.all Char.isDigit = true →
      pS ≠ [] → pS.all Char.isDigit = true →
      laneS ≠ [] → laneS.all Char.isDigit = true →
      _parse_lport ⟨lcS ++ '.' :: (pS ++ ':' :: laneS)⟩
          = some ((digitsVal lcS : Int), (digitsVal pS : Int), (digitsVal laneS : Int))
        ∧ _parse_lport ⟨lcS ++ '.' :: pS⟩
          = some ((digitsVal lcS : Int), (digitsVal pS : Int), -1))
    ∧ _parse_lport tok_3_12_2 = some (3, 12, 2)
    ∧ _parse_lport tok_3_12 = some (3, 12, -1)
    ∧ _parse_lport tok_3 = none := by
  refine ⟨?_, by decide, by decide, by decide⟩
  intro lcS pS laneS hlc0 hlc hp0 hp hlane0 hlane
  have hdotlc : '.' ∉ lcS := not_mem_of_all_digits hlc (by decide)
  have hdotp : '.' ∉ pS := not_mem_of_all_digits hp (by decide)
  have hdotlane : '.' ∉ laneS := not_mem_of_all_digits hlane (by decide)
  have hcolonp : ':' ∉ pS := not_mem_of_all_digits hp (by decide)
  have hcolonlane : ':' ∉ laneS := not_mem_of_all_digits hlane (by decide)
  have hdotrest : '.' ∉ pS ++ ':' :: laneS := by
    simp only [List.mem_append, List.mem_cons, not_or]
    exact ⟨hdotp, by decide, hdotlane⟩
  constructor
  · rw [_parse_lport]
    simp only [String.data]
    rw [splitChar_append _ _ _ hdotlc, splitChar_of_not_mem _ _ hdotrest]
    simp only [List.length_cons, List.length_nil, List.get?, Option.bind_eq_bind,
      Option.some_bind, Option.pure_def, if_true, reduceIte]
    rw [splitChar_append _ _ _ hcolonp, splitChar_of_not_mem _ _ hcolonlane]
    simp only [List.length_cons, List.length_nil, List.get?, Option.bind_eq_bind,
      Option.some_bind, Option.pure_def, if_true, reduceIte, List.head?]
    rw [pyIntChars_digits hlc0 hlc, pyIntChars_digits hp0 hp, pyIntChars_digits hlane0 hlane]
    rfl
  · rw [_parse_lport]
    simp only [String.data]
    rw [splitChar_append _ _ _ hdotlc, splitChar_of_not_mem _ _ hdotp]
    simp only [List.length_cons, List.length_nil, List.get?, Option.bind_eq_bind,
      Option.some_bind, Option.pure_def, if_true, reduceIte]
    rw [splitChar_of_not_mem _ _ hcolonp]
    simp only [List.length_cons, List.length_nil, List.get?, Option.bind_eq_bind,
      Option.some_bind, Option.pure_def, List.head?, reduceIte]
    rw [pyIntChars_digits hlc0 hlc, pyIntChars_digits hp0 hp]
    rfl

/-- Witness for claim C6: the universal part applied to the concrete
well-formed numerals of `"3.12:2"` and `"3.12"`. -/
theorem parse_lport_egress_tokens_witness :
    _parse_lport ⟨['3'] ++ '.' :: (['1', '2'] ++ ':' :: ['2'])⟩
        = some ((digitsVal ['3'] : Int), (digitsVal ['1', '2'] : Int), (digitsVal ['2'] : Int))
      ∧ _parse_lport ⟨['3'] ++ '.' :: ['1', '2']⟩
        = some ((digitsVal ['3'] : Int), (digitsVal ['1', '2'] : Int), -1) :=
  parse_lport_egress_tokens.1 ['3'] ['1', '2'] ['2'] (by decide) (by decide) (by decide)
    (by decide) (by decide) (by decide)

instance decEqExcept {ε : Type u} {α : Type v} [DecidableEq ε] [DecidableEq α] :
    DecidableEq (Except ε α) := fun a b =>
  match a, b with
  | .ok a, .ok b =>
    if h : a = b then isTrue (by rw [h]) else isFalse (fun hc => h (Except.ok.inj hc))
  | .error e, .error f =>
    if h : e = f then isTrue (by rw [h]) else isFalse (fun hc => h (Except.error.inj hc))
  | .ok _, .error _ => isFalse (fun hc => Except.noConfusion hc)
  | .error _, .ok _ => isFalse (fun hc => Except.noConfusion hc)

/-- Claim C10: the compact port encoder `_qport` returns the unlaned
two-digit code `"{p:02}"` both for an absent lane and for every lane value
below 1, and the lane-tagged code `"{p:02}_{lane}"` exactly when the lane is
at least 1; consequently a non-breakout egress token without an explicit lane
(parsed lane sentinel `-1`) resolves to the same port key as a laneless
lookup. -/
theorem qport_lane_guard :
    (∀ p : Int, _qport p none = fmt02 p)
    ∧ (∀ p l : Int, l < 1 → _qport p (some l) = fmt02 p)
    ∧ (∀ p l : Int, 1 ≤ l → _qport p (some l) = fmt02 p ++ underscoreStr ++ toString l)
    ∧ (∀ p : Int, _qport p (some (-1)) = _qport p none) := by
  refine ⟨fun p => rfl, fun p l hl => ?_, fun p l hl => ?_, fun p => ?_⟩
  · simp only [_qport]
    rw [if_neg (by omega : ¬(1 : Int) ≤ l)]
  · simp only [_qport]
    rw [if_pos hl]
  · simp only [_qport]
    rw [if_neg (by omega : ¬(1 : Int) ≤ -1)]

/-- Witness for claim C10 at port 5: lane `-1` encodes unlaned, lane 1 encodes
lane-tagged. -/
theorem qport_lane_guard_witness :
    _qport 5 (some (-1)) = fmt02 5
      ∧ _qport 5 (some 1) = fmt02 5 ++ underscoreStr ++ toString (1 : Int) :=
  ⟨qport_lane_guard.2.1 5 (-1) (by decide), qport_lane_guard.2.2.1 5 1 (by decide)⟩

/-- Claim C4: a port reported with `Type="OPort_CF1"` and `Breakout=true`
produces exactly 4 Port entries with lanes 1..4 and serial labels
`"{lc:02}.{p:01}.{lane}"` for lanes 1..4; every other port produces exactly
one entry with serial `"{lc:02}.{p:01}.1"`. -/
theorem port_entries_by_breakout (lc1 p1 : Nat) (pj : PortJson) :
    (pj.breakout = true → pj.ptype = typeOPortCF1 →
      portEntries lc1 p1 pj =
        [{ port_id := _qport p1 (some 1),
           serial := fmt02 lc1 ++ dotStr ++ toString p1 ++ dotStr ++ toString (1 : Nat) },
         { port_id := _qport p1 (some 2),
           serial := fmt02 lc1 ++ dotStr ++ toString p1 ++ dotStr ++ toString (2 : Nat) },
         { port_id := _qport p1 (some 3),
           serial := fmt02 lc1 ++ dotStr ++ toString p1 ++ dotStr ++ toString (3 : Nat) },
         { port_id := _qport p1 (some 4),
           serial := fmt02 lc1 ++ dotStr ++ toString p1 ++ dotStr ++ toString (4 : Nat) }])
    ∧ ((pj.breakout = true ∧ pj.ptype = typeOPortCF1 → False) →
      portEntries lc1 p1 pj =
        [{ port_id := _qport p1 none,
           serial := fmt02 lc1 ++ dotStr ++ toString p1 ++ dotStr ++ oneStr }]) := by
  constructor
  · intro h1 h2
    have hc : (pj.breakout && pj.ptype == typeOPortCF1) = true := by
      rw [h1, h2]
      simp
    rw [portEntries, if_pos hc, (by decide : List.range 4 = [0, 1, 2, 3])]
    simp only [List.map]
    push_cast
    norm_num
    exact ⟨rfl, rfl, rfl, rfl⟩
  · intro h
    have hc : ¬((pj.breakout && pj.ptype == typeOPortCF1) = true) := by
      intro hb
      rw [Bool.and_eq_true, beq_iff_eq] at hb
      exact h hb
    rw [portEntries, if_neg hc]

/-- Witness for claim C4: port 5 of linecard 2, once as a breakout
`OPort_CF1` port and once as a non-breakout port. -/
theorem port_entries_by_breakout_witness :
    portEntries 2 5 { ptype := typeOPortCF1, breakout := true } =
      [{ port_id := _qport ((5 : Nat) : Int) (some 1),
         serial := fmt02 ((2 : Nat) : Int) ++ dotStr ++ toString (5 : Nat) ++ dotStr
           ++ toString (1 : Nat) },
       { port_id := _qport ((5 : Nat) : Int) (some 2),
         serial := fmt02 ((2 : Nat) : Int) ++ dotStr ++ toString (5 : Nat) ++ dotStr
           ++ toString (2 : Nat) },
       { port_id := _qport ((5 : Nat) : Int) (some 3),
         serial := fmt02 ((2 : Nat) : Int) ++ dotStr ++ toString (5 : Nat) ++ dotStr
           ++ toString (3 : Nat) },
       { port_id := _qport ((5 : Nat) : Int) (some 4),
         serial := fmt02 ((2 : Nat) : Int) ++ dotStr ++ toString (5 : Nat) ++ dotStr
           ++ toString (4 : Nat) }]
    ∧ portEntries 2 5 { ptype := typeOPortCF1, breakout := false } =
      [{ port_id := _qport ((5 : Nat) : Int) none,
         serial := fmt02 ((2 : Nat) : Int) ++ dotStr ++ toString (5 : Nat) ++ dotStr
           ++ oneStr }] :=
  ⟨(port_entries_by_breakout 2 5 { ptype := typeOPortCF1, breakout := true }).1 rfl rfl,
   (port_entries_by_breakout 2 5 { ptype := typeOPortCF1, breakout := false }).2
     (fun h => absurd h.1 (by decide))⟩

theorem buildBladesAux_mem_fst :
    ∀ (lcs : List (Option (List PortJson))) (lc0 : Nat) (j : Int),
      (j ∈ (buildBladesAux lc0 lcs).map Prod.fst
        ↔ ∃ i ports, lcs.get? i = some (some ports) ∧ j = (lc0 : Int) + (i : Int) + 1)
  | [], lc0, j => by
    simp [buildBladesAux]
  | none :: rest, lc0, j => by
    rw [buildBladesAux, buildBladesAux_mem_fst rest (lc0 + 1) j]
    constructor
    · rintro ⟨i, ports, hget, hj⟩
      refine ⟨i + 1, ports, by simpa using hget, ?_⟩
      push_cast at hj ⊢
      omega
    · rintro ⟨i, ports, hget, hj⟩
      cases i with
      | zero => simp at hget
      | succ i =>
        refine ⟨i, ports, by simpa using hget, ?_⟩
        push_cast at hj ⊢
        omega
  | some ports0 :: rest, lc0, j => by
    rw [buildBladesAux]
    simp only [List.map_cons, List.mem_cons]
    rw [buildBladesAux_mem_fst rest (lc0 + 1) j]
    constructor
    · rintro (hj | ⟨i, ports, hget, hj⟩)
      · refine ⟨0, ports0, rfl, ?_⟩
        push_cast at hj ⊢
        omega
      · refine ⟨i + 1, ports, by simpa using hget, ?_⟩
        push_cast at hj ⊢
        omega
    · rintro ⟨i, ports, hget, hj⟩
      cases i with
      | zero =>
        left
        push_cast at hj ⊢
        omega
      | succ i =>
        right
        refine ⟨i, ports, by simpa using hget, ?_⟩
        push_cast at hj ⊢
        omega

theorem buildBladesAux_length :
    ∀ (lcs : List (Option (List PortJson))) (lc0 : Nat),
      (buildBladesAux lc0 lcs).length = (lcs.filter Option.isSome).length
  | [], _ => rfl
  | none :: rest, lc0 => by
    rw [buildBladesAux, buildBladesAux_length rest (lc0 + 1)]
    rfl
  | some ports :: rest, lc0 => by
    rw [buildBladesAux]
    simp only [List.length_cons, buildBladesAux_length rest (lc0 + 1)]
    rfl

/-- Claim C5: discovery creates one Linecard exactly for each non-null slot
of the chassis slot list, with 1-based ids matching the slot positions; the
slot list `[null, x, y]` produces exactly the two Linecards 2 and 3. -/
theorem blade_creation :
    (∀ (lcs : List (Option (List PortJson))) (i : Nat),
      ((i : Int) + 1 ∈ bladeIds lcs ↔ ∃ ports, lcs.get? i = some (some ports)))
    ∧ (∀ lcs, (bladeIds lcs).length = (lcs.filter Option.isSome).length)
    ∧ bladeIds [none, some [], some []] = [2, 3] := by
  refine ⟨fun lcs i => ?_, fun lcs => ?_, by decide⟩
  · rw [bladeIds, buildBlades, buildBladesAux_mem_fst]
    constructor
    · rintro ⟨i2, ports, hget, hj⟩
      have : i2 = i := by push_cast at hj; omega
      exact ⟨ports, this ▸ hget⟩
    · rintro ⟨ports, hget⟩
      exact ⟨i, ports, hget, by push_cast; omega⟩
  · rw [bladeIds, buildBlades, List.length_map, buildBladesAux_length]

/-- Claim C1: for a breakout port and each source lane `l` in 1..4, each
egress entry is indexed at `min(l-1, len(entry)-1)`; a non-empty selected
slot is parsed as an egress token; a single-element entry forces the inferred
destination lane to the source lane `l`; and — provided the destination port
key exists on the destination blade whenever that linecard is known — an
edge is recorded if and only if the destination linecard is known in the
topology being built and the inferred destination lane equals `l`; when
recorded, it is stored on the destination port and points back at the
source.  In particular, for egress `[["3.5:1"]]` on lane 1 the inferred lane
is 1 and the edge is recorded iff linecard 3 is known. -/
theorem breakout_egress_rule (blades : Blades) (src : Int × String) (l : Nat)
    (hl1 : 1 ≤ l) (hl4 : l ≤ 4) (entry : List (Option String)) (s : String)
    (elc ep elane0 : Int)
    (hslot : entry.get? (min (l - 1) (entry.length - 1)) = some (some s))
    (hs : ¬(s.length = 0))
    (hparse : _parse_lport s = some (elc, ep, elane0))
    (inferred : Int)
    (hinf : inferred = if entry.length = 1 then (l : Int) else elane0)
    (hexists : hasKey blades elc = true → keyIn blades elc (_qport ep (some inferred)) = true) :
    (recordsEdge (breakoutLaneStep blades src (l - 1) entry)
        = (hasKey blades elc && (inferred == (l : Int))))
    ∧ ((hasKey blades elc && (inferred == (l : Int))) = true →
        breakoutLaneStep blades src (l - 1) entry
          = .ok (some { owner := (elc, _qport ep (some inferred)), mapped := src }))
    ∧ ((hasKey blades 3 = true → keyIn blades 3 (_qport 5 (some 1)) = true) →
        recordsEdge (breakoutLaneStep blades src 0 [some tok_3_5_1]) = hasKey blades 3) := by
  have hlen : ¬(entry.length = 0) := by
    intro h0
    rw [List.length_eq_zero.mp h0] at hslot
    simp at hslot
  have hcast : ((l - 1 : Nat) : Int) + 1 = (l : Int) := by omega
  have hstep : breakoutLaneStep blades src (l - 1) entry
      = (if hasKey blades elc && (inferred == (l : Int)) then
          (if keyIn blades elc (_qport ep (some inferred)) then
            .ok (some { owner := (elc, _qport ep (some inferred)), mapped := src })
          else .error (.keyError (_qport ep (some inferred))))
        else .ok none) := by
    rw [breakoutLaneStep, if_neg hlen, hslot]
    simp only
    rw [if_neg hs, hparse]
    simp only [hcast, ← hinf]
  constructor
  · rw [hstep]
    by_cases hcond : (hasKey blades elc && (inferred == (l : Int))) = true
    · rw [if_pos hcond, hexists ((Bool.and_eq_true _ _).mp hcond).1, hcond]
      rfl
    · rw [if_neg hcond, (Bool.not_eq_true _).mp hcond]
      rfl
  constructor
  · intro hcond
    rw [hstep, if_pos hcond, if_pos (hexists ((Bool.and_eq_true _ _).mp hcond).1)]
  · intro h3
    have hp : _parse_lport tok_3_5_1 = some (3, 5, 1) := by decide
    have hstep3 : breakoutLaneStep blades src 0 [some tok_3_5_1]
        = (if hasKey blades 3 then
            (if keyIn blades 3 (_qport 5 (some 1)) then
              .ok (some { owner := (3, _qport 5 (some 1)), mapped := src })
            else .error (.keyError (_qport 5 (some 1))))
          else .ok none) := by
      rw [breakoutLaneStep]
      simp only [List.length_cons, List.length_nil, List.get?, hp]
      norm_num
      intro h0
      exact absurd h0 (by decide)
    by_cases hk : hasKey blades 3 = true
    · rw [hstep3, if_pos hk, if_pos (h3 hk), hk]
      rfl
    · rw [hstep3, if_neg hk, (Bool.not_eq_true _).mp hk]
      rfl

/-- Witness for claim C1: lane 1 of a breakout port with egress
`[["3.5:1"]]`, against a topology that knows linecard 3 with port key
`"05_1"`. -/
theorem breakout_egress_rule_witness :
    recordsEdge (breakoutLaneStep [((3 : Int), [key_05_1])] ((1 : Int), key_01_1)
        (1 - 1) [some tok_3_5_1])
      = (hasKey [((3 : Int), [key_05_1])] 3 && ((1 : Int) == ((1 : Nat) : Int))) :=
  (breakout_egress_rule [((3 : Int), [key_05_1])] ((1 : Int), key_01_1) 1
    (by decide) (by decide) [some tok_3_5_1] tok_3_5_1 3 5 1 (by decide) (by decide)
    (by decide) 1 (by decide) (fun _ => by decide)).1

/-- The topology used in the C2 comparison: linecard 1 with plain port 1,
linecard 2 with breakout port 1 (lanes 1..4) and plain port 3. -/
def bladesC2 : Blades :=
  [((1 : Int), [key_01]), (2, [key_01_1, key_01_2, key_01_3, key_01_4, key_03])]

/-- Counterexample to claim C2 as stated: for a non-breakout port with the
two-entry egress `[["2.1:2"], ["2.3"]]` the code records one edge per entry
(two edges, the first keyed by the parsed lane, `"01_2"`), while the claimed
behaviour — first egress entry only, destination lane ignored — would look up
key `"01"` and produce a different result. -/
theorem non_breakout_first_entry_only_cex :
    resolveNonBreakoutPort bladesC2 (1, key_01) [[some tok_2_1_2], [some tok_2_3]]
        = .ok [{ owner := (2, key_01_2), mapped := (1, key_01) },
               { owner := (2, key_03), mapped := (1, key_01) }]
      ∧ nonBreakoutResolveClaimed bladesC2 (1, key_01) [[some tok_2_1_2], [some tok_2_3]]
        = .error (.keyErrorDiag 2 key_01 [key_01_1, key_01_2, key_01_3, key_01_4, key_03])
      ∧ ¬(resolveNonBreakoutPort bladesC2 (1, key_01) [[some tok_2_1_2], [some tok_2_3]]
          = nonBreakoutResolveClaimed bladesC2 (1, key_01) [[some tok_2_1_2], [some tok_2_3]]) := by
  decide

/-- Claim C2 amended: for a non-breakout port, egress resolution iterates
over every egress entry; for each entry it takes the first slot only, parses
it, and, if the destination linecard is known in the topology, resolves it to
that linecard's port keyed by the parsed port and parsed lane (the lane being
dropped exactly when the token carried no explicit lane, sentinel `-1`, by
the `_qport` guard) and records the edge — stored on the destination port,
pointing back at the source; an entry whose destination linecard is unknown
records nothing. -/
theorem non_breakout_resolution (blades : Blades) (src : Int × String)
    (entry : List (Option String)) (rest : List (List (Option String)))
    (s : String) (elc ep elane : Int)
    (hslot : entry.get? 0 = some (some s))
    (hparse : _parse_lport s = some (elc, ep, elane)) :
    (hasKey blades elc = true → keyIn blades elc (_qport ep (some elane)) = true →
      nonBreakoutStep blades src entry
        = .ok (some { owner := (elc, _qport ep (some elane)), mapped := src }))
    ∧ (hasKey blades elc = false → nonBreakoutStep blades src entry = .ok none)
    ∧ (∀ m, nonBreakoutStep blades src entry = .ok (some m) →
        resolveNonBreakoutPort blades src (entry :: rest)
          = (resolveNonBreakoutPort blades src rest).map (fun ms => m :: ms))
    ∧ (nonBreakoutStep blades src entry = .ok none →
        resolveNonBreakoutPort blades src (entry :: rest)
          = resolveNonBreakoutPort blades src rest) := by
  refine ⟨fun hk hkey => ?_, fun hk => ?_, fun m hm => ?_, fun hm => ?_⟩
  · rw [nonBreakoutStep, hslot]
    simp only
    rw [hparse]
    simp only
    rw [if_pos hk, if_pos hkey]
  · rw [nonBreakoutStep, hslot]
    simp only
    rw [hparse]
    simp only
    rw [if_neg (by rw [hk]; exact Bool.false_ne_true)]
  · rw [resolveNonBreakoutPort, resolveEntries, hm]
    rw [resolveNonBreakoutPort]
    cases hrest : resolveEntries (nonBreakoutStep blades src) rest with
    | ok ms => rfl
    | error d => rfl
  · rw [resolveNonBreakoutPort, resolveEntries, hm]
    rw [resolveNonBreakoutPort]
    cases hrest : resolveEntries (nonBreakoutStep blades src) rest with
    | ok ms => rfl
    | error d => rfl

/-- Witness for the amended claim C2: the laneless token `"2.3"` resolved
against a topology knowing linecard 2, recorded on destination `"03"`. -/
theorem non_breakout_resolution_witness :
    nonBreakoutStep bladesC2 ((1 : Int), key_01) [some tok_2_3]
      = .ok (some { owner := ((2 : Int), _qport 3 (some (-1))), mapped := ((1 : Int), key_01) }) :=
  (non_breakout_resolution bladesC2 ((1 : Int), key_01) [some tok_2_3] [] tok_2_3 2 3 (-1)
    (by decide) (by decide)).1 (by decide) (by decide)

/-- Counterexample to claim C3 as stated: in the breakout branch, the egress
token `"2.9:1"` on lane 1 references linecard 2 — known in the topology — but
the destination key `"09_1"` is absent; discovery fails with the bare
`KeyError` carrying only the expected key, not the diagnosed error that
reports the destination linecard and the set of currently known keys. -/
theorem inconsistency_reporting_cex :
    breakoutLaneStep [((2 : Int), [key_01])] ((1 : Int), key_01_1) 0 [some tok_2_9_1]
        = .error (.keyError key_09_1)
      ∧ isDiagnosedInconsistency
          (breakoutLaneStep [((2 : Int), [key_01])] ((1 : Int), key_01_1) 0
            [some tok_2_9_1]) = false := by
  decide

/-- Claim C3 amended: whenever an egress token references a destination
linecard known in the topology but the destination port key is absent, the
discovery call fails with an error and no partial result (any step error
aborts the resolution of the remaining entries).  When the reference is
resolved through the non-breakout branch, the failure carries the destination
linecard, the expected key and the sorted set of currently known keys; through
the breakout branch the error carries only the expected key. -/
theorem inconsistency_is_fatal (blades : Blades) (src : Int × String)
    (entry : List (Option String)) (rest : List (List (Option String))) :
    (∀ (s : String) (elc ep elane : Int), entry.get? 0 = some (some s) →
      _parse_lport s = some (elc, ep, elane) →
      hasKey blades elc = true →
      keyIn blades elc (_qport ep (some elane)) = false →
      nonBreakoutStep blades src entry
        = .error (.keyErrorDiag elc (_qport ep (some elane))
            (sortKeys (bladeKeys blades elc))))
    ∧ (∀ (l : Nat) (s : String) (elc ep elane inferred : Int), 1 ≤ l →
        entry.get? (min (l - 1) (entry.length - 1)) = some (some s) →
        ¬(s.length = 0) →
        _parse_lport s = some (elc, ep, elane) →
        inferred = (if entry.length = 1 then (l : Int) else elane) →
        hasKey blades elc = true → inferred = (l : Int) →
        keyIn blades elc (_qport ep (some inferred)) = false →
        breakoutLaneStep blades src (l - 1) entry
          = .error (.keyError (_qport ep (some inferred))))
    ∧ (∀ (stepFn : List (Option String) → Except DiscoveryError (Option Mapping))
        (d : DiscoveryError), stepFn entry = .error d →
        resolveEntries stepFn (entry :: rest) = .error d) := by
  refine ⟨fun s elc ep elane hslot hparse hk hkey => ?_,
    fun l s elc ep elane inferred hl1 hslot hs hparse hinf hk hil hkey => ?_,
    fun stepFn d hd => ?_⟩
  · rw [nonBreakoutStep, hslot]
    simp only
    rw [hparse]
    simp only
    rw [if_pos hk, if_neg (by rw [hkey]; exact Bool.false_ne_true)]
  · have hlen : ¬(entry.length = 0) := by
      intro h0
      rw [List.length_eq_zero.mp h0] at hslot
      simp at hslot
    have hcast : ((l - 1 : Nat) : Int) + 1 = (l : Int) := by omega
    rw [breakoutLaneStep, if_neg hlen, hslot]
    simp only
    rw [if_neg hs, hparse]
    simp only [hcast, ← hinf]
    rw [if_pos (by rw [hk, hil]; simp), if_neg (by rw [hkey]; exact Bool.false_ne_true)]
  · rw [resolveEntries, hd]
    rfl

/-- Witness for the amended claim C3: non-breakout token `"2.9:1"` against a
topology that knows linecard 2 but not key `"09_1"`. -/
theorem inconsistency_is_fatal_witness :
    nonBreakoutStep [((2 : Int), [key_01])] ((1 : Int), key_01) [some tok_2_9_1]
      = .error (.keyErrorDiag 2 (_qport 9 (some 1))
          (sortKeys (bladeKeys [((2 : Int), [key_01])] 2))) :=
  (inconsistency_is_fatal [((2 : Int), [key_01])] ((1 : Int), key_01)
    [some tok_2_9_1] []).1 tok_2_9_1 2 9 1 (by decide) (by decide) (by decide) (by decide)

/-- Counterexample to claim C7 as stated: a 300 response (non-success, not
auto-followed without a Location header) with no structured error body does
not surface as a transport-status error carrying the code — `raise
r.raise_for_status()` raises `None` (a `TypeError`), because
`raise_for_status` only raises for 400..599. -/
theorem post_error_surface_cex :
    chassis_post 300 none = .error .raisedNone
      ∧ chassis_post_claimed 300 none = .error (.httpStatus 300)
      ∧ ¬(chassis_post 300 none = chassis_post_claimed 300 none) := by
  decide

/-- Claim C7 amended: for every mutating operation, a non-success status
(anything other than 200 and 204) whose body carries an `Error` field
surfaces as a device-rejected `ColdFusionException` with that message
verbatim; with no such body it surfaces as a transport-status error carrying
the HTTP status code when the status lies in 400..599, and otherwise as the
status-less `TypeError` of `raise None`; success returns nothing. -/
theorem post_error_surface (code : Nat) (errorField : Option String) :
    (code = 200 ∨ code = 204 → chassis_post code errorField = .ok ())
    ∧ (¬(code = 200 ∨ code = 204) →
        (∀ e, errorField = some e → chassis_post code errorField = .error (.coldFusion e))
        ∧ (errorField = none → 400 ≤ code → code < 600 →
            chassis_post code errorField = .error (.httpStatus code))
        ∧ (errorField = none → ¬(400 ≤ code ∧ code < 600) →
            chassis_post code errorField = .error .raisedNone)) := by
  constructor
  · intro h
    rw [chassis_post, if_pos h]
  · intro h
    refine ⟨fun e he => ?_, fun he h4 h6 => ?_, fun he hrange => ?_⟩
    · rw [chassis_post, if_neg h, he, _handle_error]
    · rw [chassis_post, if_neg h, he, _handle_error, raise_for_status, if_pos ⟨h4, h6⟩]
    · rw [chassis_post, if_neg h, he, _handle_error, raise_for_status, if_neg hrange]

/-- Witness for the amended claim C7: the device response
`{Error: "port busy"}` at status 500 surfaces verbatim, and a bodyless 404
surfaces as a transport-status error carrying 404. -/
theorem post_error_surface_witness :
    chassis_post 500 (some portBusyMsg) = .error (.coldFusion portBusyMsg)
      ∧ chassis_post 404 none = .error (.httpStatus 404) :=
  ⟨((post_error_surface 500 (some portBusyMsg)).2 (by decide)).1 portBusyMsg rfl,
   ((post_error_surface 404 none).2 (by decide)).2.1 rfl (by decide) (by decide)⟩

theorem allSome_map_length {α β : Type} (f : α → Option β) :
    ∀ (l : List α) (r : List β), allSome (l.map f) = some r → r.length = l.length
  | [], r, h => by
    rw [List.map_nil, allSome] at h
    rw [← Option.some_inj.mp h]
    rfl
  | a :: l, r, h => by
    rw [List.map_cons, allSome] at h
    cases hfa : f a with
    | none => rw [hfa] at h; simp at h
    | some b =>
      rw [hfa] at h
      cases hrest : allSome (l.map f) with
      | none => rw [hrest] at h; simp at h
      | some rs =>
        rw [hrest] at h
        simp only [Option.bind_eq_bind, Option.some_bind, Option.pure_def,
          Option.some_inj] at h
        rw [← h, List.length_cons, List.length_cons,
          allSome_map_length f l rs hrest]

/-- Claim C8: `map_tap` is semantically identical to `map_uni` — it returns
`map_uni`'s result outright — and for every source address and destination
list, `map_uni` issues exactly one `map` request with direction `"OneWay"`
containing one pair per destination, each pair being `(A = resolved source,
B = resolved destination)`. -/
theorem tap_equals_uni :
    (∀ (src : String) (dsts : List String),
      map_tap_request src dsts = map_uni_request src dsts)
    ∧ (∀ (src : String) (dsts : List String) (req : MapRequest),
        map_uni_request src dsts = some req →
        req.api = mapApi ∧ req.Direction = oneWayStr
          ∧ req.Pairs.length = dsts.length
          ∧ ∃ s rs, _portid src = some s ∧ allSome (dsts.map _portid) = some rs
              ∧ req.Pairs = rs.map (fun d => (some s, some d))) := by
  constructor
  · intro src dsts
    rfl
  · intro src dsts req h
    rw [map_uni_request] at h
    cases hp : _portid src with
    | none => rw [hp] at h; simp at h
    | some s =>
      rw [hp] at h
      cases ha : allSome (dsts.map _portid) with
      | none => rw [ha] at h; simp at h
      | some rs =>
        rw [ha] at h
        simp only [Option.bind_eq_bind, Option.some_bind, Option.pure_def,
          Option.some_inj] at h
        refine ⟨by rw [← h], by rw [← h], ?_, s, rs, rfl, rfl, by rw [← h]⟩
        rw [← h]
        simp only [List.length_map]
        exact allSome_map_length _portid dsts rs ha

/-- Resolved pair code of `addr_1_21`. -/
def pid_1_21 : String := "1.21"

/-- Resolved pair code of `addr_1_22`. -/
def pid_1_22 : String := "1.22"

/-- Resolved pair code of `addr_1_23`. -/
def pid_1_23 : String := "1.23"

/-- The request `map_uni` builds for source `addr_1_21` and destinations
`[addr_1_22, addr_1_23]`. -/
def reqUniC : MapRequest :=
  { api := mapApi, Direction := oneWayStr,
    Pairs := [(some pid_1_21, some pid_1_22), (some pid_1_21, some pid_1_23)] }

/-- Witness for claim C8: the concrete two-destination fan-out issues one
`OneWay` request with exactly two pairs sharing the resolved source. -/
theorem tap_equals_uni_witness :
    reqUniC.api = mapApi ∧ reqUniC.Direction = oneWayStr
      ∧ reqUniC.Pairs.length = ([addr_1_22, addr_1_23] : List String).length
      ∧ ∃ s rs, _portid addr_1_21 = some s
          ∧ allSome (([addr_1_22, addr_1_23] : List String).map _portid) = some rs
          ∧ reqUniC.Pairs = rs.map (fun d => (some s, some d)) :=
  tap_equals_uni.2 addr_1_21 [addr_1_22, addr_1_23] reqUniC (by decide)

/-- The update path for linecard 1, port 21. -/
def path_1_21 : String := "linecards/1/ports/21"

/-- Claim C9 (code bug): for the lane-qualified address
`"192.168.42.240/1/21_2"` the attribute-set path never builds the comma
padding — the expression `"," * lane-1` parses as `(","*lane) - 1` and raises
`TypeError` for every nonzero lane — whereas for a laneless address the
partial update keyed by the linecard/port path is issued (with the raw
value; the computed `val` is discarded even in the intended reading).  The
padding the spec intends for lane 2 would have been `",10000,,"`. -/
theorem set_attribute_value_lane_bug :
    set_attribute_value addr_1_21_2 speed10000 = .typeError
      ∧ set_attribute_value addr_1_21 speed10000 = .put path_1_21 speed10000
      ∧ paddedValueSpec 2 speed10000 = ⟨',' :: speed10000.data ++ [',', ',']⟩ := by
  decide
